import Mathlib

/-!
Verification of the leapmotion WebSocket client (Go package `leapmotion`)
against its specification.

Shallow embedding conventions:
* Go `float64` is embedded as `ℚ` (exact arithmetic; the package performs only
  field operations and comparisons on its floats).
* Go `int` is embedded as `ℤ`.
* Go slices are embedded as `List`; a nil slice has length 0, so the source's
  combined `x == nil || len(x) < 3` tests reduce to a single length test.
* Fallible operations return `Except String α`, carrying the exact error
  strings of the source (`errors.New` messages).
* The concurrent receive loop (`Client.processData`) is embedded as a fold
  over a finite list of receive results, recording the handler invocations,
  the buffer state and whether the loop body ever reached an exit point.
-/

namespace Leapmotion

/-- `Gesture` from the source: a Gesture object in a `Frame`. -/
structure Gesture where
  Center : List ℚ
  Direction : List ℚ
  Duration : ℤ
  HandsIDs : List ℤ
  ID : ℤ
  Normal : List ℚ
  PointableIDs : List ℤ
  Position : List ℚ
  Progress : ℚ
  Radius : ℚ
  Speed : ℚ
  StartPosition : List ℚ
  State : String
  ty : String   -- Go field `Type` (renamed: `Type` is reserved in Lean)
deriving DecidableEq

/-- `Hand` from the source: a Hand object in a `Frame`. -/
structure Hand where
  ArmBasis : List ℚ
  ArmWidth : ℚ
  Confidence : ℚ
  Direction : List ℚ
  Elbow : List ℚ
  GrabStrength : ℚ
  ID : ℤ
  PalmNormal : List ℚ
  PalmPosition : List ℚ
  PalmVelocity : List ℚ
  PinchStrength : ℚ
  R : List (List ℚ)
  S : ℚ
  SphereCenter : List ℚ
  SphereRadius : ℚ
  StabilizedPalmPosition : List ℚ
  T : List ℚ
  TimeVisible : ℚ
  ty : String   -- Go field `Type`
  Wrist : List ℚ
deriving DecidableEq

/-- `InteractionBox` from the source: `Center []int`, `Size []float64`. -/
structure InteractionBox where
  Center : List ℤ
  Size : List ℚ
deriving DecidableEq

/-- `Pointable` from the source: a Pointable in a `Frame`. -/
structure Pointable where
  Bases : List ℚ
  BtipPosition : List ℚ
  CarpPosition : List ℚ
  DipPosition : List ℚ
  Direction : List ℚ
  Extended : Bool
  HandID : ℤ
  ID : ℤ
  Length : ℚ
  McpPosition : List ℚ
  PipPosition : List ℚ
  StabilizedTipPosition : List ℚ
  TimeVisible : ℚ
  TipPosition : List ℚ
  TipVelocity : List ℚ
  Tool : Bool
  TouchDistance : ℚ
  TouchZone : String
  ty : ℤ   -- Go field `Type`
  Width : ℚ
deriving DecidableEq

/-- `Frame` from the source: the tracking data format. -/
structure Frame where
  CurrentFrameRate : ℚ
  ID : ℚ
  R : List (List ℚ)
  S : ℚ
  T : List ℚ
  Timestamp : ℤ
  Gestures : List Gesture
  Hands : List Hand
  InteractionBox : InteractionBox
  Pointables : List Pointable
deriving DecidableEq

/-- The Go zero value `Frame{}` (all numeric fields 0, slices nil, strings empty),
as allocated once by `data := &Frame{}` at the top of `Client.processData`. -/
def Frame.zero : Frame :=
  { CurrentFrameRate := 0
    ID := 0
    R := []
    S := 0
    T := []
    Timestamp := 0
    Gestures := []
    Hands := []
    InteractionBox := { Center := [], Size := [] }
    Pointables := [] }

instance {ε α : Type} [DecidableEq ε] [DecidableEq α] : DecidableEq (Except ε α) :=
  fun x y =>
  match x, y with
  | .error a, .error b => decidable_of_iff (a = b) (by simp)
  | .error _, .ok _ => .isFalse (fun h => Except.noConfusion h)
  | .ok _, .error _ => .isFalse (fun h => Except.noConfusion h)
  | .ok a, .ok b => decidable_of_iff (a = b) (by simp)

/-- Error string of the source for a malformed `Center` (line 95). -/
def centerErrMsg : String := "Center isn\x27t set or doesn\x27t have enough values"

/-- Error string of the source for a malformed `Size` (line 98). -/
def sizeErrMsg : String := "Size isn\x27t set or doesn\x27t have enough values"

/-- Error string of the source for a malformed position (line 101; the typo
`postion` is the source's). -/
def positionErrMsg : String := "postion isn\x27t set or doesn\x27t have enough values"

/-- The clamping applied per axis when `clamp` is true:
`math.Min(math.Max(v, 0), 1)` (source lines 114-116). -/
def clamp01 (v : ℚ) : ℚ := min (max v 0) 1

/-- The affine transform applied to axis `k` (source lines 105-107):
`(position[k] - float64(i.Center[k])) / i.Size[k] + 0.5`. -/
def rawAt (i : InteractionBox) (position : List ℚ) (k : ℕ) : ℚ :=
  (position.getD k 0 - (i.Center.getD k 0 : ℚ)) / i.Size.getD k 0 + 1/2

/-- `InteractionBox.NormalizePoint` from the source (lines 93-120).
The source checks `x == nil || len(x) < 3` for each of Center, Size and the
position; a nil slice has length 0, so the nil test is subsumed by the length
test. The source assigns the three affine components twice (lines 105-107 and
109-111, a verbatim repetition computing identical values), then clamps each
axis when `clamp` is true. Indexing is within bounds under the guards. -/
def InteractionBox.NormalizePoint (i : InteractionBox) (position : List ℚ)
    (clamp : Bool) : Except String (List ℚ) :=
  if i.Center.length < 3 then
    .error centerErrMsg
  else if i.Size.length < 3 then
    .error sizeErrMsg
  else if position.length < 3 then
    .error positionErrMsg
  else
    -- vec[k] = ((position[k] - float64(i.Center[k])) / i.Size[k]) + 0.5,
    -- assigned twice in the source with identical right-hand sides.
    let v0 := rawAt i position 0
    let v1 := rawAt i position 1
    let v2 := rawAt i position 2
    if clamp then
      .ok [clamp01 v0, clamp01 v1, clamp01 v2]
    else
      .ok [v0, v1, v2]

/-! ### Receive loop (`Client.processData`, source lines 182-194)

The loop body is
```
if err := websocket.JSON.Receive(c.ws, data); err != nil { continue }
if c.frameHandler != nil { c.frameHandler(data) }
```
inside `for { ... }` with `defer close(c.done)` before it. Each call of
`websocket.JSON.Receive` either fails or overwrites the single shared buffer
`data` with a decoded frame; we embed one receive outcome as `RecvResult`. -/

/-- Outcome of one `websocket.JSON.Receive(c.ws, data)` call: an error, or a
successful decode leaving the buffer holding frame `f`. -/
inductive RecvResult where
  | recvErr : RecvResult
  | frame : Frame → RecvResult
deriving DecidableEq

/-- Whether the loop body exits the `for` loop on this receive outcome.
Translated from the body: the error branch executes `continue`; the success
branch falls through to the next iteration. Neither branch contains a
`break` or `return`, so no outcome exits the loop. -/
def bodyExitsLoop : RecvResult → Bool
  | .recvErr => false   -- `continue`
  | .frame _ => false   -- end of loop body: next iteration

/-- One iteration of the loop over the shared buffer: returns the new buffer
content and, when a handler is installed and the decode succeeded, the buffer
content passed to the handler at this iteration. -/
def processDataStep (handlerPresent : Bool) (buf : Frame) :
    RecvResult → Frame × Option Frame
  | .recvErr => (buf, none)
  | .frame f => (f, if handlerPresent then some f else none)

/-- Run the loop body over a finite prefix of receive outcomes, threading the
shared buffer; returns the handler invocations (buffer content at call time,
in order) and the final buffer content. -/
def processDataRun (handlerPresent : Bool) :
    List RecvResult → Frame → List Frame × Frame
  | [], buf => ([], buf)
  | e :: es, buf =>
    let step := processDataStep handlerPresent buf e
    let rest := processDataRun handlerPresent es step.1
    (step.2.toList ++ rest.1, rest.2)

/-- Observable effects of `Client.processData` over a finite prefix of receive
outcomes. -/
structure LoopTrace where
  /-- Buffer contents passed to the handler, in invocation order. -/
  handlerCalls : List Frame
  /-- Number of `Frame` allocations performed by `processData`. -/
  bufferAllocs : ℕ
  /-- Content of the shared buffer after the prefix; this is what every
  reference retained by an earlier handler invocation now points at. -/
  finalBuffer : Frame
  /-- Whether `close(c.done)` has run; the `defer` fires exactly when the
  loop exits and `processData` returns. -/
  doneFired : Bool
deriving DecidableEq

/-- `Client.processData` over a finite prefix of receive outcomes.
`data := &Frame{}` allocates the single buffer once, before the loop, so
`bufferAllocs = 1` regardless of the number of messages; the deferred
`close(c.done)` runs only if some iteration exits the loop. -/
def processData (handlerPresent : Bool) (events : List RecvResult) : LoopTrace :=
  let run := processDataRun handlerPresent events Frame.zero
  { handlerCalls := run.1
    bufferAllocs := 1
    finalBuffer := run.2
    doneFired := events.any bodyExitsLoop }

/-- The frames successfully decoded from a list of receive outcomes, in order. -/
def decodedFrames (events : List RecvResult) : List Frame :=
  events.filterMap fun e =>
    match e with
    | .recvErr => none
    | .frame f => some f

/-! ### Connection state, `Connect` and `Close` (source lines 146-207) -/

/-- State of the underlying transport connection (`*websocket.Conn`). -/
structure ConnState where
  isOpen : Bool
deriving DecidableEq

/-- Transport-level close of the connection. The transport is the external
`golang.org/x/net/websocket` library over a `net.Conn`: closing an open
connection succeeds; closing an already-closed connection returns an error
(the close-frame write and `net.Conn.Close` both fail on a closed socket). -/
def connStateClose (c : ConnState) : ConnState × Option String :=
  if c.isOpen then
    ({ isOpen := false }, none)
  else
    ({ isOpen := false }, some "use of closed network connection")

/-- `Client` state relevant to `Close`/`Done`: the connection handle (the Go
field `ws`, never reassigned after construction — in particular `Close` does
not set it to nil) and whether the done channel has been closed. -/
structure ClientState where
  ws : Option ConnState
  doneFired : Bool
deriving DecidableEq

/-- `Client.Close` from the source (lines 197-202):
```
if c.ws == nil { return nil }
return c.ws.Close()
```
It does not touch `c.done` and does not clear `c.ws`. -/
def ClientState.close (c : ClientState) : ClientState × Option String :=
  match c.ws with
  | none => (c, none)
  | some conn =>
    let closed := connStateClose conn
    ({ c with ws := some closed.1 }, closed.2)

/-- Environment for one `Connect` call: the results of the dial and of the two
`websocket.JSON.Send` calls (`none` = success, `some e` = error `e`). -/
structure ConnectEnv where
  dialErr : Option String
  sendGesturesErr : Option String
  sendBackgroundErr : Option String
deriving DecidableEq

/-- Observable outcome of `Connect`. -/
structure ConnectOutcome where
  client : Option ClientState
  connectErr : Option String
  /-- Whether `go c.processData()` was reached. -/
  loopStarted : Bool
  /-- Whether the dial succeeded, i.e. a transport connection exists. -/
  connDialed : Bool
  /-- Whether `Connect` itself closed the dialed connection on any path.
  The source contains no `Close` call, so this is `false` on every path. -/
  connClosedByConnect : Bool
deriving DecidableEq

/-- `Connect` from the source (lines 155-180): dial, build the client, send
`{"enableGestures": true}` then `{"backgroundMessage": true}`, and only then
start the receive loop. Each failing step returns `nil` and the error
immediately; no path closes the already-dialed connection. -/
def Connect (env : ConnectEnv) : ConnectOutcome :=
  match env.dialErr with
  | some e =>
    { client := none, connectErr := some e, loopStarted := false
      connDialed := false, connClosedByConnect := false }
  | none =>
    match env.sendGesturesErr with
    | some e =>
      { client := none, connectErr := some e, loopStarted := false
        connDialed := true, connClosedByConnect := false }
    | none =>
      match env.sendBackgroundErr with
      | some e =>
        { client := none, connectErr := some e, loopStarted := false
          connDialed := true, connClosedByConnect := false }
      | none =>
        { client := some { ws := some { isOpen := true }, doneFired := false }
          connectErr := none, loopStarted := true
          connDialed := true, connClosedByConnect := false }

/-- The calibration volume used by the source's test `TestNormalizePoint`:
`Center: []int{1, 1, 1}`, `Size: []float64{1, 1, 1}`. -/
def testBox : InteractionBox := { Center := [1, 1, 1], Size := [1, 1, 1] }

/-- A frame differing from the zero frame (ID 1), used as a second decoded
message. -/
def frameOne : Frame := { Frame.zero with ID := 1 }

/-- A client whose connection is present and open (the state `Connect`
returns on success). -/
def openClient : ClientState := { ws := some { isOpen := true }, doneFired := false }

/-- A client whose connection handle is nil. -/
def nilClient : ClientState := { ws := none, doneFired := false }

/-! ### Helper lemmas -/

theorem clamp01_nonneg (x : ℚ) : 0 ≤ clamp01 x :=
  le_min (le_max_right x 0) zero_le_one

theorem clamp01_le_one (x : ℚ) : clamp01 x ≤ 1 :=
  min_le_right _ _

theorem clamp01_of_neg {x : ℚ} (h : x < 0) : clamp01 x = 0 := by
  unfold clamp01
  rw [max_eq_right h.le, min_eq_left zero_le_one]

theorem clamp01_of_one_lt {x : ℚ} (h : 1 < x) : clamp01 x = 1 := by
  unfold clamp01
  rw [max_eq_left (zero_le_one.trans h.le), min_eq_right h.le]

theorem clamp01_of_mem {x : ℚ} (h0 : 0 ≤ x) (h1 : x ≤ 1) : clamp01 x = x := by
  unfold clamp01
  rw [max_eq_left h0, min_eq_left h1]

theorem clamp01_idem (x : ℚ) : clamp01 (clamp01 x) = clamp01 x :=
  clamp01_of_mem (clamp01_nonneg x) (clamp01_le_one x)

theorem normalizePoint_ok (i : InteractionBox) (p : List ℚ) (clamp : Bool)
    (hc : ¬ i.Center.length < 3) (hs : ¬ i.Size.length < 3)
    (hp : ¬ p.length < 3) :
    i.NormalizePoint p clamp =
      .ok (if clamp then
            [clamp01 (rawAt i p 0), clamp01 (rawAt i p 1), clamp01 (rawAt i p 2)]
          else
            [rawAt i p 0, rawAt i p 1, rawAt i p 2]) := by
  unfold InteractionBox.NormalizePoint
  rw [if_neg hc, if_neg hs, if_neg hp]
  cases clamp <;> rfl

/-! ### Claims about `NormalizePoint` -/

/-- Claim C2: for every interaction box with center and size of length 3 and
every point of length 3, the unclamped result of `NormalizePoint` satisfies
`normalized[k] = (p[k] - center[k]) / size[k] + 0.5` for each axis `k < 3`. -/
theorem c2_normalize_affine (i : InteractionBox) (p : List ℚ)
    (hc : i.Center.length = 3) (hs : i.Size.length = 3) (hp : p.length = 3) :
    ∃ v, i.NormalizePoint p false = .ok v ∧
      ∀ k, k < 3 →
        v.getD k 0 = (p.getD k 0 - (i.Center.getD k 0 : ℚ)) / i.Size.getD k 0 + 1/2 := by
  refine ⟨[rawAt i p 0, rawAt i p 1, rawAt i p 2], ?_, ?_⟩
  · rw [normalizePoint_ok i p false (by omega) (by omega) (by omega)]
    rfl
  · intro k hk
    interval_cases k <;> rfl

/-- Witness for C2 at the test volume and point `(1,1,1)`. -/
theorem c2_normalize_affine_witness :
    ∃ v, testBox.NormalizePoint [1, 1, 1] false = .ok v ∧
      ∀ k, k < 3 →
        v.getD k 0 = (([1, 1, 1] : List ℚ).getD k 0 - (testBox.Center.getD k 0 : ℚ))
          / testBox.Size.getD k 0 + 1/2 :=
  c2_normalize_affine testBox [1, 1, 1] rfl rfl rfl

/-- Counterexample to claim C3 as stated: a center of length 4 (≠ 3) is
accepted — `NormalizePoint` returns a result and no validation error,
because the source only rejects lengths strictly below 3. -/
theorem c3_counterexample :
    InteractionBox.NormalizePoint { Center := [1, 1, 1, 1], Size := [1, 1, 1] }
      [1, 1, 1] false = .ok [1/2, 1/2, 1/2] := by
  rw [normalizePoint_ok { Center := [1, 1, 1, 1], Size := [1, 1, 1] } [1, 1, 1] false
    (by decide) (by decide) (by decide)]
  norm_num [rawAt]

/-- Claim C3 (amended): `NormalizePoint` returns a distinct validation error
for each of center, size and point of length strictly below 3 (checked in
that order), and succeeds whenever all three have length at least 3 —
components beyond the third are ignored rather than rejected. -/
theorem c3_shape_validation (i : InteractionBox) (p : List ℚ) (clamp : Bool) :
    (i.Center.length < 3 → i.NormalizePoint p clamp = .error centerErrMsg)
    ∧ (3 ≤ i.Center.length → i.Size.length < 3 →
        i.NormalizePoint p clamp = .error sizeErrMsg)
    ∧ (3 ≤ i.Center.length → 3 ≤ i.Size.length → p.length < 3 →
        i.NormalizePoint p clamp = .error positionErrMsg)
    ∧ (3 ≤ i.Center.length → 3 ≤ i.Size.length → 3 ≤ p.length →
        ∃ v, i.NormalizePoint p clamp = .ok v)
    ∧ (centerErrMsg ≠ sizeErrMsg ∧ centerErrMsg ≠ positionErrMsg
        ∧ sizeErrMsg ≠ positionErrMsg) := by
  refine ⟨fun h1 => ?_, fun h1 h2 => ?_, fun h1 h2 h3 => ?_, fun h1 h2 h3 => ?_, ?_⟩
  · unfold InteractionBox.NormalizePoint
    rw [if_pos h1]
  · unfold InteractionBox.NormalizePoint
    rw [if_neg (by omega), if_pos h2]
  · unfold InteractionBox.NormalizePoint
    rw [if_neg (by omega), if_neg (by omega), if_pos h3]
  · exact ⟨_, normalizePoint_ok i p clamp (by omega) (by omega) (by omega)⟩
  · refine ⟨?_, ?_, ?_⟩ <;> decide

/-- Witness for C3 (amended): an empty center is rejected with the center
validation error. -/
theorem c3_shape_validation_witness :
    InteractionBox.NormalizePoint { Center := [], Size := [1, 1, 1] } [1, 1, 1] true
      = .error centerErrMsg :=
  (c3_shape_validation { Center := [], Size := [1, 1, 1] } [1, 1, 1] true).1 (by decide)

/-- Claim C4: with `clamp = true` every output axis lies in `[0, 1]` —
raw values below 0 become 0, raw values above 1 become 1, and raw values
inside `[0, 1]` (including the endpoints) pass through unchanged; with
`clamp = false` the output is the unconstrained affine transform. -/
theorem c4_clamp_saturation (i : InteractionBox) (p : List ℚ)
    (hc : 3 ≤ i.Center.length) (hs : 3 ≤ i.Size.length) (hp : 3 ≤ p.length) :
    (∃ v, i.NormalizePoint p true = .ok v ∧
      ∀ k, k < 3 →
        (0 ≤ v.getD k 0 ∧ v.getD k 0 ≤ 1)
        ∧ (rawAt i p k < 0 → v.getD k 0 = 0)
        ∧ (1 < rawAt i p k → v.getD k 0 = 1)
        ∧ (0 ≤ rawAt i p k → rawAt i p k ≤ 1 → v.getD k 0 = rawAt i p k))
    ∧ i.NormalizePoint p false = .ok [rawAt i p 0, rawAt i p 1, rawAt i p 2] := by
  constructor
  · refine ⟨[clamp01 (rawAt i p 0), clamp01 (rawAt i p 1), clamp01 (rawAt i p 2)],
      ?_, ?_⟩
    · rw [normalizePoint_ok i p true (by omega) (by omega) (by omega)]
      rfl
    · intro k hk
      interval_cases k <;>
        exact ⟨⟨clamp01_nonneg _, clamp01_le_one _⟩,
          fun h => clamp01_of_neg h, fun h => clamp01_of_one_lt h,
          fun h0 h1 => clamp01_of_mem h0 h1⟩
  · rw [normalizePoint_ok i p false (by omega) (by omega) (by omega)]
    rfl

/-- Witness for C4 at the test volume and point `(1,1,1)`. -/
theorem c4_clamp_saturation_witness :
    testBox.NormalizePoint [1, 1, 1] false
      = .ok [rawAt testBox [1, 1, 1] 0, rawAt testBox [1, 1, 1] 1,
             rawAt testBox [1, 1, 1] 2] :=
  (c4_clamp_saturation testBox [1, 1, 1] (by decide) (by decide) (by decide)).2

/-- Claim C9: the clamped output of `NormalizePoint` is a fixed point of the
per-axis clamp — re-applying the saturating min/max to an already-clamped
output yields the same output — and the clamp leaves every value already in
`[0, 1]` unchanged. -/
theorem c9_clamp_idempotent (i : InteractionBox) (p v : List ℚ)
    (h : i.NormalizePoint p true = .ok v) :
    v.map clamp01 = v ∧ ∀ x : ℚ, 0 ≤ x → x ≤ 1 → clamp01 x = x := by
  refine ⟨?_, fun x h0 h1 => clamp01_of_mem h0 h1⟩
  by_cases h1 : i.Center.length < 3
  · simp [InteractionBox.NormalizePoint, h1] at h
  by_cases h2 : i.Size.length < 3
  · simp [InteractionBox.NormalizePoint, h1, h2] at h
  by_cases h3 : p.length < 3
  · simp [InteractionBox.NormalizePoint, h1, h2, h3] at h
  rw [normalizePoint_ok i p true h1 h2 h3] at h
  have hv : [clamp01 (rawAt i p 0), clamp01 (rawAt i p 1), clamp01 (rawAt i p 2)] = v := by
    simpa using h
  subst hv
  simp [clamp01_idem]

/-- Witness for C9 at the test volume and point `(1,1,1)`. -/
theorem c9_clamp_idempotent_witness :
    ([0.5, 0.5, 0.5] : List ℚ).map clamp01 = [0.5, 0.5, 0.5]
    ∧ ∀ x : ℚ, 0 ≤ x → x ≤ 1 → clamp01 x = x :=
  c9_clamp_idempotent testBox [1, 1, 1] [0.5, 0.5, 0.5] (by
    rw [normalizePoint_ok testBox [1, 1, 1] true (by decide) (by decide) (by decide)]
    norm_num [rawAt, testBox, clamp01, min_def, max_def])

/-! ### Helper lemmas about the receive loop -/

theorem list_any_bodyExitsLoop (events : List RecvResult) :
    events.any bodyExitsLoop = false := by
  induction events with
  | nil => rfl
  | cons e es ih => cases e <;> simpa [bodyExitsLoop] using ih

theorem decodedFrames_nil : decodedFrames [] = [] := rfl

theorem decodedFrames_cons_recvErr (es : List RecvResult) :
    decodedFrames (.recvErr :: es) = decodedFrames es := rfl

theorem decodedFrames_cons_frame (f : Frame) (es : List RecvResult) :
    decodedFrames (.frame f :: es) = f :: decodedFrames es := rfl

theorem decodedFrames_append (es1 es2 : List RecvResult) :
    decodedFrames (es1 ++ es2) = decodedFrames es1 ++ decodedFrames es2 :=
  List.filterMap_append es1 es2 _

theorem decodedFrames_map_frame (fs : List Frame) :
    decodedFrames (fs.map RecvResult.frame) = fs := by
  induction fs with
  | nil => rfl
  | cons f fs ih => simpa [decodedFrames_cons_frame] using ih

theorem processDataRun_calls (events : List RecvResult) (buf : Frame) :
    (processDataRun true events buf).1 = decodedFrames events := by
  induction events generalizing buf with
  | nil => rfl
  | cons e es ih =>
    cases e <;>
      simp [processDataRun, processDataStep, decodedFrames_cons_recvErr,
        decodedFrames_cons_frame, ih]

theorem processDataRun_final (handlerPresent : Bool) (events : List RecvResult)
    (buf : Frame) :
    (processDataRun handlerPresent events buf).2 = (decodedFrames events).getLastD buf := by
  induction events generalizing buf with
  | nil => rfl
  | cons e es ih =>
    cases e with
    | recvErr =>
      have h1 : (processDataRun handlerPresent (.recvErr :: es) buf).2
          = (processDataRun handlerPresent es buf).2 := rfl
      rw [h1, ih buf, decodedFrames_cons_recvErr]
    | frame f =>
      have h1 : (processDataRun handlerPresent (.frame f :: es) buf).2
          = (processDataRun handlerPresent es f).2 := rfl
      rw [h1, ih f, decodedFrames_cons_frame, List.getLastD_cons]

/-! ### Claims about the receive loop and the client lifecycle -/

/-- Claim C1 (refuted by the code): the claim says `Close` makes the receive
loop exit and the done-signal fire. In the source, neither branch of the loop
body exits the `for` loop (a receive error runs `continue`, a success falls
through to the next iteration), so over any finite sequence of receive
outcomes — in particular the endless receive errors produced by a closed
connection — the loop never returns and the deferred `close(c.done)` never
runs: the done-signal never fires. -/
theorem c1_done_never_fires (handlerPresent : Bool) (events : List RecvResult) :
    (processData handlerPresent events).doneFired = false := by
  simp [processData, list_any_bodyExitsLoop]

/-- Claim C5: a malformed message among well-formed ones is skipped, every
well-formed message is delivered to the handler in arrival order with none
other dropped, and the decode error neither terminates the loop nor is
surfaced (the deliveries equal those of the same trace without the malformed
message). -/
theorem c5_loop_resilience (fs1 fs2 : List Frame) :
    (processData true
        (fs1.map RecvResult.frame ++ RecvResult.recvErr :: fs2.map RecvResult.frame)).handlerCalls
      = fs1 ++ fs2
    ∧ (processData true
        (fs1.map RecvResult.frame ++ RecvResult.recvErr :: fs2.map RecvResult.frame)).handlerCalls
      = (processData true
          (fs1.map RecvResult.frame ++ fs2.map RecvResult.frame)).handlerCalls
    ∧ (processData true
        (fs1.map RecvResult.frame ++ RecvResult.recvErr :: fs2.map RecvResult.frame)).doneFired
      = false := by
  have key : ∀ es : List RecvResult,
      (processData true es).handlerCalls = decodedFrames es := fun es =>
    processDataRun_calls es Frame.zero
  refine ⟨?_, ?_, ?_⟩
  · rw [key, decodedFrames_append, decodedFrames_cons_recvErr,
      decodedFrames_map_frame, decodedFrames_map_frame]
  · rw [key, key, decodedFrames_append, decodedFrames_cons_recvErr,
      decodedFrames_append]
  · exact list_any_bodyExitsLoop _

/-- Counterexample to claim C7 as stated: over a trace of two distinct
well-formed messages, the loop performs a single `Frame` allocation (not one
per message), and after the second decode the shared buffer — the record every
retained handler argument points at — holds the second frame, not the first:
a retained Frame is mutated by subsequent iterations. -/
theorem c7_counterexample :
    (processData true [RecvResult.frame Frame.zero, RecvResult.frame frameOne]).bufferAllocs ≠ 2
    ∧ (processData true [RecvResult.frame Frame.zero, RecvResult.frame frameOne]).finalBuffer
      ≠ Frame.zero := by
  constructor <;> decide

/-- Claim C7 (amended): `processData` allocates exactly one `Frame` buffer for
the whole loop and passes that same buffer to every handler invocation; each
successful decode overwrites it in place, so after any trace the buffer seen
through every retained reference holds the content of the last successfully
decoded message (or the zero frame if none). -/
theorem c7_single_shared_buffer (events : List RecvResult) :
    (processData true events).bufferAllocs = 1
    ∧ (processData true events).handlerCalls = decodedFrames events
    ∧ (processData true events).finalBuffer = (decodedFrames events).getLastD Frame.zero :=
  ⟨rfl, processDataRun_calls events Frame.zero, processDataRun_final true events Frame.zero⟩

/-- Counterexample to claim C6 as stated: on a client whose connection is open,
the first `Close` succeeds, but because `Close` does not clear the `ws` field,
a second `Close` re-closes the already-closed transport connection and
returns its error — the second call does not return no error. -/
theorem c6_counterexample :
    ((openClient.close).1.close).2 ≠ none := by
  decide

/-- Claim C6 (amended): `Close` on a client with a nil connection returns no
error and leaves the client unchanged, and `Close` never touches the
done-signal (so it cannot make it fire a second time); but `Close` does not
clear the connection handle, so a repeated `Close` re-invokes the transport
close on the stored connection and passes its result — an error for a
standard transport whose close fails on an already-closed connection —
through to the caller. -/
theorem c6_close_semantics (c : ClientState) :
    ((c.close).1).doneFired = c.doneFired
    ∧ (c.ws = none → c.close = (c, none))
    ∧ (∀ conn, c.ws = some conn →
        (c.close).2 = (connStateClose conn).2
        ∧ (c.close).1.ws = some (connStateClose conn).1) := by
  obtain ⟨ws, df⟩ := c
  cases ws with
  | none =>
    exact ⟨rfl, fun _ => rfl, fun conn h => by simp at h⟩
  | some conn =>
    refine ⟨rfl, fun h => by simp at h, fun c2 h => ?_⟩
    have : conn = c2 := by simpa using h
    subst this
    exact ⟨rfl, rfl⟩

/-- Witness for C6 (amended): closing a client with a nil connection returns
the client unchanged and no error. -/
theorem c6_close_semantics_witness :
    nilClient.close = (nilClient, none) :=
  (c6_close_semantics nilClient).2.1 rfl

/-- Claim C10: when the dial succeeds and either post-handshake configuration
send fails, `Connect` returns no client together with the send error, does not
start the receive loop, and does not close the already-dialed transport
connection. -/
theorem c10_send_failure_leaks_conn (env : ConnectEnv) (e : String)
    (hd : env.dialErr = none)
    (hs : env.sendGesturesErr = some e
      ∨ (env.sendGesturesErr = none ∧ env.sendBackgroundErr = some e)) :
    Connect env = { client := none, connectErr := some e, loopStarted := false
                    connDialed := true, connClosedByConnect := false } := by
  obtain ⟨d, s1, s2⟩ := env
  simp only at hd hs
  subst hd
  rcases hs with h1 | ⟨h1, h2⟩
  · subst h1; rfl
  · subst h1; subst h2; rfl

/-- Witness for C10: a failing first configuration send. -/
theorem c10_send_failure_leaks_conn_witness :
    Connect { dialErr := none, sendGesturesErr := some "send failed",
              sendBackgroundErr := none }
      = { client := none, connectErr := some "send failed", loopStarted := false
          connDialed := true, connClosedByConnect := false } :=
  c10_send_failure_leaks_conn
    { dialErr := none, sendGesturesErr := some "send failed", sendBackgroundErr := none }
    "send failed" rfl (Or.inl rfl)

end Leapmotion
